import Mathlib

/-!
Shallow embedding of the officiels scoring program
(`officiels_from_ffnex.py`): duty resolution per official per session,
participation aggregation, the points formula with its cache, the
team-size discovery, the forfeit counters and the competition-link merge.
-/

namespace Officiels

/-- The `Départemental` / `Régional` classification of a `Poste`
(the depart and regional columns): Licencié, Officiel or empty. -/
inductive Compte
  | licencie
  | officiel
  | vide
deriving DecidableEq, Repr

/-- A grade level (`Niveau`), compared through its numeric `valeur`. -/
structure Niveau where
  valeur : Int
deriving DecidableEq, Repr

/-- A duty (`Poste`): catalog index, minimum grade and the two
counts-as classifications. -/
structure Poste where
  index : Nat
  niveau : Niveau
  depart : Compte
  regional : Compte
deriving DecidableEq, Repr

/-- Bonus table of `preferred_to`: Licencié scores 2, Officiel scores 1,
anything else 0. -/
def compteScore : Compte → Int
  | .licencie => 2
  | .officiel => 1
  | .vide => 0

/-- Priority score of a `Poste` as computed inside `Poste.preferred_to`:
grade weight plus the bonus of each classification. -/
def Poste.score (p : Poste) : Int :=
  p.niveau.valeur + compteScore p.depart + compteScore p.regional

/-- Preference between duties: strictly greater priority score wins, and a
score tie is broken by the lower catalog index. -/
def Poste.preferred_to (p other : Poste) : Bool :=
  if p.score ≠ other.score then decide (p.score > other.score)
  else decide (p.index < other.index)

/-- Validity of a duty (`valid_for`): whether it counts for the department
classification and for the regional classification, given whether the
official is a real (qualified) official. -/
def Poste.valid_for (p : Poste) (real_officiel : Bool) : Bool × Bool :=
  (decide (p.depart = Compte.licencie) ||
     (decide (p.depart = Compte.officiel) && real_officiel),
   decide (p.regional = Compte.licencie) ||
     (decide (p.regional = Compte.officiel) && real_officiel))

/-- An `Officiel` as resolved per session: identity, home club (by id),
grade, qualified-official flag, currently held duty and the validity
flags computed once the duty is fixed. -/
structure Officiel where
  index : Nat
  club : Nat
  niveau : Niveau
  real_officiel : Bool
  poste : Option Poste
  valid : Option (Bool × Bool)
deriving DecidableEq, Repr

/-- Duty installation (`set_poste`): install the duty if none is held; keep
the held duty exactly when it is preferred to the new one, and recompute
the validity flags whenever the duty changes. -/
def Officiel.set_poste (o : Officiel) (p : Poste) : Officiel :=
  match o.poste with
  | none =>
    { o with poste := some p, valid := some (p.valid_for o.real_officiel) }
  | some held =>
    if held.preferred_to p then o
    else { o with poste := some p, valid := some (p.valid_for o.real_officiel) }

/-- Validity read-out (`is_valid`): the validity flag for the requested
classification (`valid[0]` for department, `valid[1]` for regional).
A resolved official always has `valid` set; `none` reads as invalid. -/
def Officiel.is_valid (o : Officiel) (depart : Bool) : Bool :=
  match o.valid with
  | some v => if depart then v.1 else v.2
  | none => false

/-- Required officials `needed = (minQualified, total)` from
`Reunion.points`, branching on competition level and team format. -/
def computeNeeded (departemental : Bool) (par_equipe : Nat)
    (participations : Nat) : Nat × Nat :=
  if departemental then
    let num_equipes := participations
    let p := participations * par_equipe
    if p = 0 then (0, 0)
    else if par_equipe = 10 then (num_equipes / 2, num_equipes)
    else
      let num_officiels := (p + 7) / 8
      (num_officiels / 2, num_officiels)
  else if par_equipe ≠ 1 then
    if participations ≤ 1 then (0, participations)
    else (1, min 3 participations)
  else
    if participations ≤ 1 then (0, 0)
    else if participations ≤ 10 then (0, 1)
    else (1, 2)

/-- Number of the club's officials whose duty is valid for the
competition's level classification (the `num` loop counter). -/
def countValid (departemental : Bool) (offs : List Officiel) : Nat :=
  (offs.filter (fun o => o.is_valid departemental)).length

/-- Number of valid officials whose grade is at or above the B threshold
(the `num_ab` loop counter). -/
def countAB (departemental : Bool) (niveau_b : Int) (offs : List Officiel) : Nat :=
  (offs.filter (fun o =>
    o.is_valid departemental && decide (niveau_b ≤ o.niveau.valeur))).length

/-- The counted officials after the regional cap: at most 5 are retained
for a regional-or-above competition. -/
def countedOfficiels (departemental : Bool) (offs : List Officiel) : Nat :=
  let num := countValid departemental offs
  if !departemental && decide (5 < num) then 5 else num

/-- Core of `Reunion.points`: the point delta together with the rationale
strings, computed from the session's aggregated state for one club. -/
def computePointsDetails (departemental : Bool) (par_equipe : Nat)
    (niveau_b : Int) (participations : Nat) (offs : List Officiel) :
    Int × List String :=
  let needed := computeNeeded departemental par_equipe participations
  let reqMsg :=
    toString needed.2 ++ " officiels requis" ++
      (if 0 < needed.1 then ", dont " ++ toString needed.1 ++ " A ou B" else "")
  let num0 := countValid departemental offs
  let num_ab := countAB departemental niveau_b offs
  let capMsgs : List String :=
    if !departemental && decide (5 < num0) then
      ["5 officiels retenus sur les " ++ toString num0 ++ " présentés"]
    else []
  let num := if !departemental && decide (5 < num0) then 5 else num0
  if num < needed.2 then
    let missing := needed.2 - num
    let pts : Int := (missing : Int) * (-4)
    (pts, [reqMsg] ++ capMsgs ++
      [toString (-pts) ++ " points négatifs pour " ++ toString missing ++
        " officiels manquants"])
  else
    let extra := num - needed.2
    let pts : Int := (extra : Int) * 2
    let extraMsgs : List String :=
      if 0 < extra then
        [toString pts ++ " points supplémentaires pour " ++ toString extra ++
          " officiels"]
      else []
    if num_ab < needed.1 then
      let missing := needed.1 - num_ab
      (pts + (missing : Int) * (-2),
        [reqMsg] ++ capMsgs ++ extraMsgs ++
          [toString (missing * 2) ++ " points de malus par manque d'officiel A/B"])
    else
      (pts, [reqMsg] ++ capMsgs ++ extraMsgs)

/-- The aggregated state of a `Reunion` read by `points`: competition
level, team size, the B-grade threshold, and the per-club maps that
`points` reads with `.get(club, 0)` and `.get(club, [])`. -/
structure ReunionData where
  departemental : Bool
  par_equipe : Nat
  niveau_b : Int
  participations : Nat → Option Nat
  officielsPerClub : Nat → Option (List Officiel)

/-- The fresh computation `points` performs on a cache miss, with the
dictionary lookups defaulting to `0` and `[]`. -/
def computeFor (data : ReunionData) (club : Nat) : Int × List String :=
  computePointsDetails data.departemental data.par_equipe data.niveau_b
    ((data.participations club).getD 0)
    ((data.officielsPerClub club).getD [])

/-- The score `points` returns for a club. -/
def reunionPoints (data : ReunionData) (club : Nat) : Int :=
  (computeFor data club).1

/-- The two memo dictionaries of a `Reunion`: `self.pts` and
`self.details`, keyed by club. -/
structure PointsCache where
  pts : Nat → Option Int
  details : Nat → Option (List String)

/-- Point update of a keyed lookup function (a dictionary store). -/
def upd {α : Type} (f : Nat → Option α) (k : Nat) (v : α) : Nat → Option α :=
  fun x => if x = k then some v else f x

/-- One call of `Reunion.points(club, details)`. The optional rationale
list argument is modelled as the request flag `wantDetails` with a fresh
empty list. A cache hit needs the score cached and, when a rationale is
requested, a stored rationale; otherwise the call recomputes, always
stores the score, and stores the rationale exactly when requested. -/
def pointsCall (data : ReunionData) (st : PointsCache) (club : Nat)
    (wantDetails : Bool) : Int × PointsCache :=
  match st.pts club with
  | some v =>
    if (st.details club).isSome || !wantDetails then (v, st)
    else
      let r := computeFor data club
      (r.1, ⟨upd st.pts club r.1, upd st.details club r.2⟩)
  | none =>
    let r := computeFor data club
    (r.1, ⟨upd st.pts club r.1,
           if wantDetails then upd st.details club r.2 else st.details⟩)

/-- The grouping state of `Reunion.officiels_per_club`: the session's
official map (values in insertion order) and the `_officiels_per_club`
memo. -/
structure ReunionOffState where
  officiels : List Officiel
  cache : Option (Nat → List Officiel)

/-- The grouping `officiels_per_club` builds on its first call: each
official is appended to its club's list in iteration order. -/
def groupOfficielsPerClub (offs : List Officiel) : Nat → List Officiel :=
  fun c => offs.filter (fun o => o.club == c)

/-- One call of `Reunion.officiels_per_club`: return the memo when it is
set, otherwise build the grouping and store it. -/
def officielsPerClubCall (st : ReunionOffState) :
    (Nat → List Officiel) × ReunionOffState :=
  match st.cache with
  | some g => (g, st)
  | none =>
    let g := groupOfficielsPerClub st.officiels
    (g, { st with cache := some g })

/-- Per-session counters touched by the link merge: the per-club
participation and engagement dictionaries and the official map. -/
structure SessionData where
  participations : Nat → Option Nat
  engagements : Nat → Option Nat
  officiels : Nat → Option Officiel

/-- A session with empty dictionaries. -/
def emptySession : SessionData :=
  ⟨fun _ => none, fun _ => none, fun _ => none⟩

/-- Merge of one satellite session `c` into the master session `m`:
for every club in either dictionary the master entry becomes the sum of
the two `.get(club, 0)` values, and a satellite official is added only
when its id is absent from the master map. -/
def mergeSession (m c : SessionData) : SessionData where
  participations := fun club =>
    match m.participations club, c.participations club with
    | none, none => none
    | mv, cv => some (mv.getD 0 + cv.getD 0)
  engagements := fun club =>
    match m.engagements club, c.engagements club with
    | none, none => none
    | mv, cv => some (mv.getD 0 + cv.getD 0)
  officiels := fun oid =>
    match m.officiels oid with
    | some o => some o
    | none => c.officiels oid

/-- The link step for one satellite competition: fatal (`none`) when the
session counts differ, otherwise each master session absorbs the
satellite session of the same ordinal. -/
def linkMerge (sat master : List SessionData) : Option (List SessionData) :=
  if sat.length ≠ master.length then none
  else some (List.zipWith (fun cr mr => mergeSession mr cr) sat master)

/-- A participant identity as appended to `reunion.participants[club]`:
a swimmer id for individual format, the string key built from the team
number and the sex of the event for team format. -/
inductive Participant
  | nageur (id : Nat)
  | equipe (team : Nat) (sexe : String)
deriving DecidableEq, Repr

/-- A child record of a `RESULT` element: `SOLO`, `RELAY` (whose
`RELAYPOSITIONS` element may be absent, and lists swimmer ids when
present) or `SPLIT`. -/
inductive RRecord
  | solo (swimmerid : Nat)
  | relay (positions : Option (List Nat))
  | split
deriving DecidableEq, Repr

/-- A `RESULT` element: club id, team number, race id, disqualification
id and its child records. -/
structure RResult where
  clubid : Nat
  team : Nat
  raceid : Nat
  disqualificationid : Nat
  records : List RRecord
deriving DecidableEq, Repr

/-- Lookup of the first relay child of a result: its positions, when
such a child exists. -/
def firstRelay (r : RResult) : Option (Option (List Nat)) :=
  (r.records.find? fun rec =>
    match rec with
    | .relay _ => true
    | _ => false).map fun rec =>
      match rec with
      | .relay ps => ps
      | _ => none

/-- The participant identities one result contributes for one club, per
the result loop of `Competition.__init__`: team format appends the
(team, sex) key once per child record when the result is not a final;
individual format appends the swimmer id of each solo record and of each
member of a non-empty relay roster, for clubs of the region. -/
def perResultParticipants (par_equipe : Nat) (clubs : List Nat)
    (lookup : Nat → Option Nat) (nageSexe : Nat → String)
    (r : RResult) (is_final : Bool) (club : Nat) : List Participant :=
  if par_equipe ≠ 1 then
    r.records.flatMap fun _ =>
      match lookup r.clubid with
      | some c =>
        if c = club ∧ is_final = false then
          [Participant.equipe r.team (nageSexe r.raceid)]
        else []
      | none => []
  else
    r.records.flatMap fun rec =>
      match rec with
      | .solo sid =>
        match lookup r.clubid with
        | some c => if c = club ∧ c ∈ clubs then [Participant.nageur sid] else []
        | none => []
      | .relay ps =>
        match ps with
        | some l =>
          if l ≠ [] then
            l.flatMap fun pid =>
              match lookup r.clubid with
              | some c => if c = club ∧ c ∈ clubs then [Participant.nageur pid] else []
              | none => []
          else []
        | none => []
      | .split => []

/-- The full `reunion.participants[club]` list accumulated over the
results of the session (each result tagged with its final-round flag). -/
def participantsLists (par_equipe : Nat) (clubs : List Nat)
    (lookup : Nat → Option Nat) (nageSexe : Nat → String)
    (results : List (RResult × Bool)) (club : Nat) : List Participant :=
  results.flatMap fun rf =>
    perResultParticipants par_equipe clubs lookup nageSexe rf.1 rf.2 club

/-- Size of the set of a list: the number of distinct elements. -/
def lenSet (l : List Participant) : Nat :=
  l.dedup.length

/-- The final per-club participation count,
`reunion.participations[club] = len(set(l))`. -/
def participationsFinal (par_equipe : Nat) (clubs : List Nat)
    (lookup : Nat → Option Nat) (nageSexe : Nat → String)
    (results : List (RResult × Bool)) (club : Nat) : Nat :=
  lenSet (participantsLists par_equipe clubs lookup nageSexe results club)

/-- Whether a result qualifies for team-size discovery: its first relay
child carries a `RELAYPOSITIONS` element and the result is not
disqualified. -/
def relayQualifies (r : RResult) : Bool :=
  match firstRelay r with
  | some (some _) => r.disqualificationid == 0
  | _ => false

/-- Roster length of the first relay child (read only on qualifying
results, where the positions are present). -/
def rosterLen (r : RResult) : Nat :=
  match firstRelay r with
  | some (some ps) => ps.length
  | _ => 0

/-- The team-size scan of `Competition.__init__`: roster length of the
first qualifying result, `none` when no result qualifies. -/
def scanTeamSize : List RResult → Option Nat
  | [] => none
  | r :: rest =>
    if relayQualifies r then some (rosterLen r) else scanTeamSize rest

/-- The numeric value of `par_equipe` after the scan: the discovered
size, or `1` when nothing was found — the attribute keeps the boolean
`True`, which compares and multiplies as `1`, so the competition is
processed as individual format. An individual competition keeps `1`. -/
def parEquipeAfter (byteam : Bool) (results : List RResult) : Nat :=
  if byteam then (scanTeamSize results).getD 1 else 1

/-- Modelled from the spec: claim C7 states that a team-format
competition whose results contain no discoverable team size raises a
hard `TeamSizeUndeterminedError`, fatal for that competition; under that
reading the construction yields no team size (`none`) instead of a
usable value. -/
def teamSizeClaim (byteam : Bool) (results : List RResult) : Option Nat :=
  if byteam then scanTeamSize results else some 1

/-- Forfeit increments one result contributes to
`reunion.forfaits[cause][club]`, per the result loop: the team branch
counts once per child record when the result is not a final; the solo
branch counts regardless of final status; the relay branch counts once
per relay child with a non-empty roster when the result is not a final.
`forfaitKeys` are the tracked causes (the keys of `reunion.forfaits`). -/
def resultForfaitDelta (par_equipe : Nat) (clubs : List Nat)
    (lookup : Nat → Option Nat) (forfaitKeys : List Nat)
    (r : RResult) (is_final : Bool) (cause club : Nat) : Nat :=
  (r.records.map fun rec =>
    if par_equipe ≠ 1 then
      match lookup r.clubid with
      | some c =>
        if is_final = false ∧ r.disqualificationid ∈ forfaitKeys ∧
            r.disqualificationid = cause ∧ c = club then 1 else 0
      | none => 0
    else
      match rec with
      | .solo _ =>
        match lookup r.clubid with
        | some c =>
          if c ∈ clubs ∧ r.disqualificationid ∈ forfaitKeys ∧
              r.disqualificationid = cause ∧ c = club then 1 else 0
        | none => 0
      | .relay ps =>
        match ps with
        | some l =>
          if l ≠ [] then
            match lookup r.clubid with
            | some c =>
              if c ∈ clubs ∧ is_final = false ∧
                  r.disqualificationid ∈ forfaitKeys ∧
                  r.disqualificationid = cause ∧ c = club then 1 else 0
            | none => 0
          else 0
        | none => 0
      | .split => 0).sum

/-! ### Claim C1 — the point delta formula -/

/-- Claim C1: for every session and club, with `needed = (minQualified,
total)` derived from the aggregated state, `counted` the number of the
club's resolved officials valid for the competition's level
classification (capped at 5 for regional-or-above) and `numQualified`
the valid officials at or above the B threshold, the score is
`-4 × (total - counted)` when `counted < total`, and otherwise
`2 × (counted - total)` minus `2 × (minQualified - numQualified)` when
`numQualified < minQualified`. -/
theorem points_delta_formula (departemental : Bool) (par_equipe : Nat)
    (niveau_b : Int) (participations : Nat) (offs : List Officiel) :
    (computePointsDetails departemental par_equipe niveau_b participations offs).1 =
      (let needed := computeNeeded departemental par_equipe participations
       let counted := countedOfficiels departemental offs
       let numQualified := countAB departemental niveau_b offs
       if counted < needed.2 then (-4) * ((needed.2 : Int) - (counted : Int))
       else
         2 * ((counted : Int) - (needed.2 : Int)) -
           (if numQualified < needed.1 then
             2 * ((needed.1 : Int) - (numQualified : Int))
           else 0)) := by
  simp only [computePointsDetails, countedOfficiels]
  split_ifs <;> simp_all <;> omega

/-! ### Claim C2 — department-level required officials -/

/-- Needed-official counts for a department-level session exactly as
claim C2 words them: `P = participations × teamSize`; `(0, 0)` when
`P = 0`, otherwise `total = ceil(P / 8)` and
`minQualified = floor(total / 2)`, for every team size. -/
def neededDeptClaim (par_equipe participations : Nat) : Nat × Nat :=
  let p := participations * par_equipe
  if p = 0 then (0, 0)
  else
    let total := (p + 7) / 8
    (total / 2, total)

/-- Claim C2 counterexample: for a department-level competition with
team size 10 and one team, the code returns `(0, 1)` (one official per
team, half of them qualified) while the claimed `ceil(P / 8)` formula
demands `(1, 2)`. -/
theorem department_needed_counterexample :
    computeNeeded true 10 1 = (0, 1) ∧ neededDeptClaim 10 1 = (1, 2) ∧
      computeNeeded true 10 1 ≠ neededDeptClaim 10 1 := by
  decide

/-- Claim C2 (amended): the department-level formula of the claim holds
for every team size other than 10; for team size 10 the total is the
raw team count and the minimum-qualified its half, with `(0, 0)` still
returned when the scaled participation count is zero. -/
theorem department_needed (par_equipe participations : Nat) :
    (par_equipe ≠ 10 →
      computeNeeded true par_equipe participations =
        neededDeptClaim par_equipe participations) ∧
    computeNeeded true 10 participations =
      (if participations = 0 then (0, 0)
       else (participations / 2, participations)) := by
  constructor
  · intro h
    simp [computeNeeded, neededDeptClaim, h]
  · simp only [computeNeeded, if_true]
    have h10 : participations * 10 = 0 ↔ participations = 0 := by omega
    split_ifs with h1 h2 <;> simp_all

/-- Witness for the amended claim C2 at team size 3 and five teams:
`P = 15`, so two officials are required, one of them A or B. -/
theorem department_needed_witness :
    (3 : Nat) ≠ 10 ∧ computeNeeded true 3 5 = neededDeptClaim 3 5 :=
  ⟨by decide, (department_needed 3 5).1 (by decide)⟩

/-! ### Claim C3 — the points cache -/

/-- Claim C3: `points` is cached per club and idempotent for fixed
aggregated state — a call without a rationale request never changes the
stored rationales, and a call with a rationale request after a cache hit
that stored no rationale returns the cached score again and recomputes
and stores the rationale. -/
theorem points_cache_idempotent (data : ReunionData) (st0 : PointsCache)
    (club : Nat) (hp : st0.pts club = none) (hd : st0.details club = none) :
    (∀ st c, (pointsCall data st c false).2.details = st.details) ∧
    (pointsCall data (pointsCall data st0 club false).2 club true).1 =
      (pointsCall data st0 club false).1 ∧
    (pointsCall data (pointsCall data st0 club false).2 club true).2.details club =
      some (computeFor data club).2 ∧
    (pointsCall data (pointsCall data st0 club false).2 club true).2.pts club =
      some (pointsCall data st0 club false).1 := by
  have h1 : pointsCall data st0 club false =
      ((computeFor data club).1,
        ⟨upd st0.pts club (computeFor data club).1, st0.details⟩) := by
    simp [pointsCall, hp]
  refine ⟨?_, ?_, ?_, ?_⟩
  · intro st c
    unfold pointsCall
    cases h : st.pts c <;> simp [h]
  · rw [h1]
    simp [pointsCall, upd, hd]
  · rw [h1]
    simp [pointsCall, upd, hd]
  · rw [h1]
    simp [pointsCall, upd, hd]

/-- A session state with nothing recorded, used to instantiate the cache
and totality theorems. -/
def dataEx : ReunionData :=
  ⟨false, 1, 0, fun _ => none, fun _ => none⟩

/-- An empty points cache. -/
def stEx : PointsCache :=
  ⟨fun _ => none, fun _ => none⟩

/-- Witness for claim C3 on an empty cache: the rationale-requesting
second call returns the score of the first, rationale-less call. -/
theorem points_cache_idempotent_witness :
    stEx.pts 0 = none ∧ stEx.details 0 = none ∧
      (pointsCall dataEx (pointsCall dataEx stEx 0 false).2 0 true).1 =
        (pointsCall dataEx stEx 0 false).1 :=
  ⟨rfl, rfl, (points_cache_idempotent dataEx stEx 0 rfl rfl).2.1⟩

/-! ### Claim C4 — the competition link merge -/

/-- Indexing a `zipWith` below its length combines the two lists. -/
theorem getD_zipWith {α β γ : Type} (f : α → β → γ) :
    ∀ (l₁ : List α) (l₂ : List β) (i : Nat) (d₁ : α) (d₂ : β) (d₃ : γ),
      i < (List.zipWith f l₁ l₂).length →
      (List.zipWith f l₁ l₂).getD i d₃ = f (l₁.getD i d₁) (l₂.getD i d₂)
  | [], _, i, _, _, _, h => by simp at h
  | _ :: _, [], i, _, _, _, h => by simp at h
  | a :: l₁, b :: l₂, 0, d₁, d₂, d₃, h => rfl
  | a :: l₁, b :: l₂, i + 1, d₁, d₂, d₃, h => by
    simpa using getD_zipWith f l₁ l₂ i d₁ d₂ d₃ (by simpa using h)

/-- Claim C4: linking fails fatally exactly when the satellite's and the
master's session counts differ; otherwise every master session holds,
per club, the sum of the pre-merge participation and engagement values,
and an official id already on record in the master session keeps its
master record. -/
theorem link_merge_sums (sat master : List SessionData) :
    (linkMerge sat master = none ↔ sat.length ≠ master.length) ∧
    ∀ merged, linkMerge sat master = some merged →
      merged.length = master.length ∧
      ∀ i club, i < merged.length →
        (((merged.getD i emptySession).participations club).getD 0 =
            ((master.getD i emptySession).participations club).getD 0 +
              ((sat.getD i emptySession).participations club).getD 0) ∧
        (((merged.getD i emptySession).engagements club).getD 0 =
            ((master.getD i emptySession).engagements club).getD 0 +
              ((sat.getD i emptySession).engagements club).getD 0) ∧
        ∀ oid o, (master.getD i emptySession).officiels oid = some o →
          (merged.getD i emptySession).officiels oid = some o := by
  constructor
  · unfold linkMerge
    split_ifs with h <;> simp [h]
  · intro merged hm
    unfold linkMerge at hm
    split_ifs at hm with h
    have hlen : sat.length = master.length := not_ne_iff.mp h
    have hmerged : merged = List.zipWith (fun cr mr => mergeSession mr cr) sat master := by
      exact (Option.some_inj.mp hm).symm
    subst hmerged
    constructor
    · simp [List.length_zipWith, hlen]
    · intro i club hi
      rw [getD_zipWith _ sat master i emptySession emptySession emptySession hi]
      refine ⟨?_, ?_, ?_⟩
      · cases hM : (master.getD i emptySession).participations club <;>
          cases hS : (sat.getD i emptySession).participations club <;>
            simp only [mergeSession, hM, hS] <;> rfl
      · cases hM : (master.getD i emptySession).engagements club <;>
          cases hS : (sat.getD i emptySession).engagements club <;>
            simp only [mergeSession, hM, hS] <;> rfl
      · intro oid o ho
        simp only [mergeSession, ho]

/-- A one-session satellite: club 7 has 2 participations and 4
engagements. -/
def satEx : List SessionData :=
  [⟨fun c => if c = 7 then some 2 else none,
    fun c => if c = 7 then some 4 else none,
    fun _ => none⟩]

/-- A one-session master: club 7 has 3 participations. -/
def masterEx : List SessionData :=
  [⟨fun c => if c = 7 then some 3 else none,
    fun _ => none,
    fun _ => none⟩]

/-- The merged sessions of the concrete satellite and master. -/
def mergedEx : List SessionData :=
  List.zipWith (fun cr mr => mergeSession mr cr) satEx masterEx

/-- Witness for claim C4: merging the one-session satellite into the
one-session master sums club 7's participations (3 + 2 = 5). -/
theorem link_merge_sums_witness :
    ((mergedEx.getD 0 emptySession).participations 7).getD 0 =
      ((masterEx.getD 0 emptySession).participations 7).getD 0 +
        ((satEx.getD 0 emptySession).participations 7).getD 0 :=
  ((((link_merge_sums satEx masterEx).2 mergedEx rfl).2 0 7 (by decide))).1

/-! ### Claim C5 — participation counts are deduplicated cardinalities -/

/-- Claim C5: the per-club participation count of a session equals the
cardinality of the deduplicated participant-identity set built from that
club's results — swimmer ids in individual format, (team, sex) keys in
team format — never the raw tally. -/
theorem participations_are_dedup_card (par_equipe : Nat) (clubs : List Nat)
    (lookup : Nat → Option Nat) (nageSexe : Nat → String)
    (results : List (RResult × Bool)) (club : Nat) :
    participationsFinal par_equipe clubs lookup nageSexe results club =
      (participantsLists par_equipe clubs lookup nageSexe results club).toFinset.card :=
  (List.card_toFinset _).symm

/-! ### Claim C6 — duty replacement and tie-break -/

/-- Characterization of `Poste.preferred_to`: strictly greater score, or
a score tie with a strictly lower catalog index. -/
theorem preferred_to_iff (p other : Poste) :
    p.preferred_to other = true ↔
      (other.score < p.score ∨
        (p.score = other.score ∧ p.index < other.index)) := by
  unfold Poste.preferred_to
  split_ifs with h
  · simp only [decide_eq_true_eq, gt_iff_lt]
    constructor
    · exact Or.inl
    · rintro (hgt | ⟨heq, _⟩)
      · exact hgt
      · exact absurd heq h
  · rw [not_ne_iff] at h
    simp [h]

/-- Action of `set_poste` on an official already holding a duty: it is
kept exactly when it is preferred to the new one. -/
theorem set_poste_some (o : Officiel) (held p : Poste)
    (h : o.poste = some held) :
    (o.set_poste p).poste =
      if held.preferred_to p then some held else some p := by
  simp only [Officiel.set_poste, h]
  split_ifs <;> simp [h]

/-- Claim C6: with a duty already held, a new duty (a distinct catalog
entry, so with a distinct index) replaces the held one exactly when its
priority score is strictly greater, or the scores tie and its catalog
index is strictly lower; and resolving two such duties gives the same
result in either insertion order. -/
theorem duty_tie_break (o : Officiel) (held p : Poste)
    (hheld : o.poste = some held) (hidx : p.index ≠ held.index) :
    (o.set_poste p).poste =
      some (if p.score > held.score ∨
              (p.score = held.score ∧ p.index < held.index) then p else held) ∧
    ∀ (o0 : Officiel) (a b : Poste), o0.poste = none → a.index ≠ b.index →
      ((o0.set_poste a).set_poste b).poste = ((o0.set_poste b).set_poste a).poste := by
  constructor
  · rw [set_poste_some o held p hheld]
    by_cases hpref : held.preferred_to p = true
    · rw [if_pos hpref]
      rw [preferred_to_iff] at hpref
      rw [if_neg]
      rintro (h | ⟨h1, h2⟩) <;> rcases hpref with h' | ⟨h1', h2'⟩ <;> omega
    · rw [if_neg hpref]
      rw [preferred_to_iff] at hpref
      push_neg at hpref
      rw [if_pos]
      by_cases hsc : p.score = held.score
      · right
        refine ⟨hsc, ?_⟩
        have := hpref.2 hsc.symm
        omega
      · left
        have := hpref.1
        omega
  · intro o0 a b h0 hab
    have ha : (o0.set_poste a).poste = some a := by
      simp [Officiel.set_poste, h0]
    have hb : (o0.set_poste b).poste = some b := by
      simp [Officiel.set_poste, h0]
    rw [set_poste_some _ a b ha, set_poste_some _ b a hb]
    by_cases h1 : a.preferred_to b = true
    · rw [if_pos h1]
      rw [preferred_to_iff] at h1
      have h2 : ¬(b.preferred_to a = true) := by
        rw [preferred_to_iff]
        rcases h1 with h | ⟨h1', h2'⟩ <;> rintro (h'' | ⟨h3, h4⟩) <;> omega
      rw [if_neg h2]
    · rw [if_neg h1]
      rw [preferred_to_iff] at h1
      push_neg at h1
      have h2 : b.preferred_to a = true := by
        rw [preferred_to_iff]
        by_cases hsc : a.score = b.score
        · right
          refine ⟨hsc.symm, ?_⟩
          have := h1.2 hsc
          omega
        · left
          have := h1.1
          omega
      rw [if_pos h2]

/-- A held starter duty: catalog index 4, level weight 1, counted for
registered members at department level only. -/
def heldEx : Poste := ⟨4, ⟨1⟩, Compte.licencie, Compte.vide⟩

/-- A competing duty: catalog index 2, level weight 1, counted for
registered members at department level only — same priority score as
`heldEx`, lower catalog index. -/
def posteEx : Poste := ⟨2, ⟨1⟩, Compte.licencie, Compte.vide⟩

/-- An official already holding `heldEx`. -/
def officielEx : Officiel :=
  ⟨11, 7, ⟨2⟩, true, some heldEx, some (true, false)⟩

/-- Witness for claim C6: on a priority-score tie the duty with the
lower catalog index wins, so `posteEx` replaces `heldEx`. -/
theorem duty_tie_break_witness :
    officielEx.poste = some heldEx ∧ posteEx.index ≠ heldEx.index ∧
      (officielEx.set_poste posteEx).poste =
        some (if posteEx.score > heldEx.score ∨
                (posteEx.score = heldEx.score ∧ posteEx.index < heldEx.index)
              then posteEx else heldEx) :=
  ⟨rfl, by decide,
    (duty_tie_break officielEx heldEx posteEx rfl (by decide)).1⟩

/-! ### Claim C7 — team-size discovery -/

/-- Claim C7 counterexample: a team-format competition whose results
contain no qualifying relay is not aborted. The claim-modelled
construction demands an error (`none`), but the code leaves `par_equipe`
at the boolean `True`, which compares and multiplies as `1`, and scoring
proceeds in individual format. -/
theorem team_size_not_fatal_counterexample :
    teamSizeClaim true [] = none ∧ parEquipeAfter true [] = 1 ∧
      computeNeeded false (parEquipeAfter true []) 5 = (0, 1) := by
  decide

/-- The scan returns the first qualifying result's roster length. -/
theorem scanTeamSize_append :
    ∀ (pre : List RResult) (r : RResult) (post : List RResult),
      (∀ x ∈ pre, relayQualifies x = false) → relayQualifies r = true →
      scanTeamSize (pre ++ r :: post) = some (rosterLen r)
  | [], r, post, _, hq => by simp [scanTeamSize, hq]
  | x :: xs, r, post, hpre, hq => by
    have hx := hpre x (by simp)
    rw [List.cons_append]
    rw [show scanTeamSize (x :: (xs ++ r :: post)) =
          if relayQualifies x then some (rosterLen x)
          else scanTeamSize (xs ++ r :: post) from rfl]
    rw [hx]
    simp only [Bool.false_eq_true, if_false]
    exact scanTeamSize_append xs r post (fun y hy => hpre y (by simp [hy])) hq

/-- Claim C7 (amended): for a team-format competition, the team size is
the roster length of the first result whose first relay child is
non-disqualified and carries positions; when no result qualifies, no
error is raised — the team-size value stays the boolean `True`, which
equals `1`, so the competition is processed as individual format. -/
theorem team_size_discovery (pre post : List RResult) (r : RResult)
    (ps : List Nat) (hpre : ∀ x ∈ pre, relayQualifies x = false)
    (hq : relayQualifies r = true) (hps : firstRelay r = some (some ps)) :
    scanTeamSize (pre ++ r :: post) = some ps.length ∧
    ∀ rs : List RResult, scanTeamSize rs = none → parEquipeAfter true rs = 1 := by
  constructor
  · rw [scanTeamSize_append pre r post hpre hq]
    simp [rosterLen, hps]
  · intro rs h
    simp [parEquipeAfter, h]

/-- A non-disqualified relay result with a four-swimmer roster. -/
def relayResultEx : RResult :=
  ⟨1, 0, 0, 0, [RRecord.relay (some [3, 4, 5, 6])]⟩

/-- Witness for the amended claim C7: the scan finds the roster of the
single qualifying relay and reports a team size of 4. -/
theorem team_size_discovery_witness :
    relayQualifies relayResultEx = true ∧
      scanTeamSize ([] ++ relayResultEx :: []) = some 4 :=
  ⟨by decide,
    (team_size_discovery [] [] relayResultEx [3, 4, 5, 6] (by decide)
        (by decide) rfl).1⟩

/-! ### Claim C8 — forfeiture counters and final rounds -/

/-- A relay result with disqualification code 2 (declared withdrawal)
for a club resolving to id 1. -/
def relayDsqEx : RResult := ⟨1, 0, 0, 2, [RRecord.relay (some [5])]⟩

/-- Club lookup resolving club id 1 only. -/
def lookupEx : Nat → Option Nat := fun c => if c = 1 then some 1 else none

/-- Claim C8 counterexample: a relay result carrying a tracked
disqualification code does not increment the forfeiture counter when the
result belongs to a final round; the same result outside a final does. -/
theorem forfait_final_counterexample :
    resultForfaitDelta 1 [1] lookupEx [1, 2, 4] relayDsqEx true 2 1 = 0 ∧
      resultForfaitDelta 1 [1] lookupEx [1, 2, 4] relayDsqEx false 2 1 = 1 := by
  decide

/-- Claim C8 (amended): a result whose disqualification code is a
tracked forfeiture category increments the per-club counter as follows:
a team-format result counts once per child record but only outside
finals; a solo result counts whether or not the round is a final; a
relay result with a non-empty roster counts only outside finals. -/
theorem forfait_increments (par_equipe : Nat) (clubs : List Nat)
    (lookup : Nat → Option Nat) (keys : List Nat) (r : RResult) (f : Bool)
    (cause club : Nat) (hc : lookup r.clubid = some club) (hm : club ∈ clubs)
    (hd : r.disqualificationid = cause) (hk : cause ∈ keys) :
    (par_equipe ≠ 1 →
      resultForfaitDelta par_equipe clubs lookup keys r f cause club =
        if f then 0 else r.records.length) ∧
    (∀ sid, r.records = [RRecord.solo sid] →
      resultForfaitDelta 1 clubs lookup keys r f cause club = 1) ∧
    (∀ l, r.records = [RRecord.relay (some l)] → l ≠ [] →
      resultForfaitDelta 1 clubs lookup keys r f cause club = if f then 0 else 1) := by
  refine ⟨?_, ?_, ?_⟩
  · intro h
    cases f <;>
      simp [resultForfaitDelta, h, hc, hd, hk, hm, List.map_const,
        List.sum_replicate]
  · intro sid hrec
    simp [resultForfaitDelta, hrec, hc, hd, hk, hm]
  · intro l hrec hl
    cases f <;> simp [resultForfaitDelta, hrec, hc, hd, hk, hm, hl]

/-- Witness for the amended claim C8: the solo counterpart of the
counterexample increments the counter even inside a final round. -/
theorem forfait_increments_witness :
    lookupEx 1 = some 1 ∧
      resultForfaitDelta 1 [1] lookupEx [1, 2, 4] ⟨1, 0, 0, 2, [RRecord.solo 9]⟩
        true 2 1 = 1 :=
  ⟨rfl,
    (forfait_increments 1 [1] lookupEx [1, 2, 4] ⟨1, 0, 0, 2, [RRecord.solo 9]⟩
        true 2 1 rfl (by decide) rfl (by decide)).2.1 9 rfl⟩

/-! ### Claim C9 — totality of points over clubs -/

/-- Claim C9: `points` is total over clubs — a club with no recorded
participation entry and no resolved officials reads as zero
participations and an empty official list, and a regional
individual-format session then scores 0 instead of failing a lookup. -/
theorem points_total_for_unknown_club (data : ReunionData) (club : Nat)
    (h1 : data.participations club = none)
    (h2 : data.officielsPerClub club = none)
    (h3 : data.departemental = false) (h4 : data.par_equipe = 1) :
    reunionPoints data club = 0 := by
  simp [reunionPoints, computeFor, h1, h2, h3, h4, computePointsDetails,
    computeNeeded, countValid, countAB]

/-- Witness for claim C9: the empty session data scores club 3 at 0. -/
theorem points_total_witness :
    dataEx.participations 3 = none ∧ reunionPoints dataEx 3 = 0 :=
  ⟨rfl, points_total_for_unknown_club dataEx 3 rfl rfl rfl rfl⟩

/-! ### Claim C10 — the per-club grouping memo -/

/-- Claim C10: `officiels_per_club` computes the grouping at most once —
the first call builds and stores it, and every later call returns the
stored mapping even after the session's official map has changed. -/
theorem group_cache_stable (offs newOffs : List Officiel) :
    (officielsPerClubCall ⟨offs, none⟩).1 = groupOfficielsPerClub offs ∧
    (officielsPerClubCall ⟨offs, none⟩).2.cache =
      some (groupOfficielsPerClub offs) ∧
    (officielsPerClubCall
        ⟨newOffs, (officielsPerClubCall ⟨offs, none⟩).2.cache⟩).1 =
      groupOfficielsPerClub offs ∧
    (officielsPerClubCall
        ⟨newOffs, (officielsPerClubCall ⟨offs, none⟩).2.cache⟩).2.officiels =
      newOffs :=
  ⟨rfl, rfl, rfl, rfl⟩

end Officiels
